import Mathlib

/-!
Shallow embedding of the data-voyager plugin/registry/connection layer.

Source files embedded here:
- `core/internal/models` (shared README listing): `DataSourceType`,
  the four `ConnectionConfig` variants with `Validate` / `GetConnectionString`,
  `ConnectionTestResult`.
- `core/internal/datasource` (shared README listing): `Registry`,
  `QueryResult` and the introspection snapshot types.
- `core/internal/datasource/plugins/postgresql/plugin.go` and the ClickHouse
  plugin file: `Plugin.Connect`, `Plugin.ValidateConfig`,
  `Plugin.TestConnection`, `Connection.Query`, `Connection.GetTables`,
  `Connection.getDatabases`, `Connection.getTableColumns`.
- `core/internal/service/datasource.go`: `DataSourceService.InitializePlugins`.
- `core/internal/api/datasource.go`: `DataSourceHandler.CreateDataSource`.

Driver-level effects (opening a client, pinging, running a catalog query) are
modelled by explicit environments that fix the outcome of each driver call;
wall-clock durations are modelled as a nanosecond count supplied by the
environment, matching Go's `time.Duration`.
-/

namespace DataVoyager

/-- DataSourceType is the closed enumeration of supported database types
(`models.DataSourceType` with its four constants). -/
inductive DataSourceType where
  | postgresql
  | clickhouse
  | sqlite
  | opensearch
deriving DecidableEq, Repr

/-- Enumeration of the whole key space of a Go `map[models.DataSourceType]Plugin`. -/
def DataSourceType.all : List DataSourceType :=
  [.postgresql, .clickhouse, .sqlite, .opensearch]

/-- PostgreSQLConfig mirrors `models.PostgreSQLConfig` (ports are Go `int`,
modelled as `Int` so that the `Port <= 0` guard is exact). -/
structure PostgreSQLConfig where
  host : String
  port : Int
  database : String
  username : String
  password : String
  sslMode : String
deriving DecidableEq, Repr

/-- Validate of `PostgreSQLConfig`: rejects an empty host; otherwise fills the
default port 5432 when `Port <= 0` and the default SSL mode "prefer" when
empty. Go mutates the receiver in place; the model returns the updated config. -/
def PostgreSQLConfig.validate (c : PostgreSQLConfig) : Except String PostgreSQLConfig :=
  if c.host = "" then
    .error "host is required"
  else
    let c1 := if c.port ≤ 0 then { c with port := 5432 } else c
    let c2 := if c1.sslMode = "" then { c1 with sslMode := "prefer" } else c1
    .ok c2

/-- ClickHouseConfig mirrors `models.ClickHouseConfig`. -/
structure ClickHouseConfig where
  host : String
  port : Int
  database : String
  username : String
  password : String
  secure : Bool
deriving DecidableEq, Repr

/-- Validate of `ClickHouseConfig`: rejects an empty host; otherwise fills the
default port 9000 when `Port <= 0`. -/
def ClickHouseConfig.validate (c : ClickHouseConfig) : Except String ClickHouseConfig :=
  if c.host = "" then
    .error "host is required"
  else if c.port ≤ 0 then
    .ok { c with port := 9000 }
  else
    .ok c

/-- SQLiteConfig mirrors `models.SQLiteConfig`. -/
structure SQLiteConfig where
  path : String
deriving DecidableEq, Repr

/-- Validate of `SQLiteConfig`: rejects an empty path, fills no defaults. -/
def SQLiteConfig.validate (c : SQLiteConfig) : Except String SQLiteConfig :=
  if c.path = "" then .error "path is required" else .ok c

/-- GetConnectionString of `SQLiteConfig`: the path itself. -/
def SQLiteConfig.getConnectionString (c : SQLiteConfig) : String :=
  c.path

/-- OpenSearchConfig mirrors `models.OpenSearchConfig`. -/
structure OpenSearchConfig where
  urls : List String
  username : String
  password : String
  apiKey : String
deriving DecidableEq, Repr

/-- Validate of `OpenSearchConfig`: rejects an empty URL list, fills no
defaults. -/
def OpenSearchConfig.validate (c : OpenSearchConfig) : Except String OpenSearchConfig :=
  if c.urls = [] then .error "at least one URL is required" else .ok c

/-- GetConnectionString of `OpenSearchConfig` returns `c.URLs[0]` with no
bounds guard; `none` models the Go runtime panic on an empty slice. -/
def OpenSearchConfig.getConnectionString (c : OpenSearchConfig) : Option String :=
  c.urls.head?

/-- ConnectionConfig is the `models.ConnectionConfig` interface: in this
repository exactly the four pointer-to-struct config variants implement it. -/
inductive ConnectionConfig where
  | pgPtr (c : PostgreSQLConfig)
  | chPtr (c : ClickHouseConfig)
  | sqlitePtr (c : SQLiteConfig)
  | osPtr (c : OpenSearchConfig)
deriving DecidableEq, Repr

/-- GoValue models a Go `interface\x7b\x7d` value as it appears in this layer:
a config pointer, a driver-scanned column value (string, int64, uint64,
`[]byte`, nil), or a JSON-decoded `map[string]interface\x7b\x7d` whose entries we
never need to inspect further (the code only type-asserts the outer value). -/
inductive GoValue where
  | config (c : ConnectionConfig)
  | str (s : String)
  | int64 (n : Int)
  | uint64 (n : Nat)
  | bytes (b : List Nat)
  | goNil
  | jsonMap (fields : List (String × GoValue))

/-- GoPlugin enumerates the two `datasource.Plugin` implementations that
exist in the repository (PostgreSQL and ClickHouse). -/
inductive GoPlugin where
  | postgresqlPlugin
  | clickhousePlugin
deriving DecidableEq, Repr

/-- GetType of each plugin (`Plugin.GetType` in each plugin file). -/
def GoPlugin.GetType : GoPlugin → DataSourceType
  | .postgresqlPlugin => .postgresql
  | .clickhousePlugin => .clickhouse

/-- GetName of each plugin (`Plugin.GetName` in each plugin file). -/
def GoPlugin.GetName : GoPlugin → String
  | .postgresqlPlugin => "PostgreSQL Plugin"
  | .clickhousePlugin => "ClickHouse Plugin"

/-- ValidateConfig of each plugin: a type assertion to the plugin's own
pointer-to-struct config type, then a delegation to that config's Validate.
Returns the Go error (`none` = nil error). -/
def GoPlugin.ValidateConfig : GoPlugin → GoValue → Option String
  | .postgresqlPlugin, .config (.pgPtr c) =>
      match c.validate with
      | .error e => some e
      | .ok _ => none
  | .postgresqlPlugin, _ => some "config must be *models.PostgreSQLConfig"
  | .clickhousePlugin, .config (.chPtr c) =>
      match c.validate with
      | .error e => some e
      | .ok _ => none
  | .clickhousePlugin, _ => some "config must be *models.ClickHouseConfig"

/-- Registry mirrors `datasource.Registry`: a Go map from type to plugin,
modelled as a function from the (finite) key space to `Option GoPlugin`. -/
structure Registry where
  plugins : DataSourceType → Option GoPlugin

/-- NewRegistry creates an empty registry. -/
def Registry.NewRegistry : Registry :=
  ⟨fun _ => none⟩

/-- Register inserts a plugin under its own `GetType` key, overwriting any
previous entry for that key (Go map assignment). -/
def Registry.Register (r : Registry) (p : GoPlugin) : Registry :=
  ⟨fun t => if t = p.GetType then some p else r.plugins t⟩

/-- Get mirrors the Go two-value map read: the entry (or the zero value,
here `none`) together with the `exists` flag. -/
def Registry.Get (r : Registry) (t : DataSourceType) : Option GoPlugin × Bool :=
  (r.plugins t, (r.plugins t).isSome)

/-- GetSupportedTypes lists the keys present in the map (Go iterates the map;
the model enumerates the finite key space in a fixed order). -/
def Registry.GetSupportedTypes (r : Registry) : List DataSourceType :=
  DataSourceType.all.filter (fun t => (r.plugins t).isSome)

/-- InitializePlugins of `DataSourceService`: registers the ClickHouse plugin
and then the PostgreSQL plugin; the SQLite and OpenSearch plugins are listed
in the source only as TODO items and are not registered. -/
def DataSourceService.InitializePlugins (r : Registry) : Registry :=
  (r.Register .clickhousePlugin).Register .postgresqlPlugin

/-- DriverEvent records the lifecycle of the driver-native client acquired
inside `Connect`: `opened` when `sql.Open` / `clickhouse.Open` succeeds,
`closed` when the code calls `Close` on it. -/
inductive DriverEvent where
  | opened
  | closed
deriving DecidableEq, Repr

/-- ConnectEnv fixes the outcomes of the two driver calls made by `Connect`:
opening the native client and the immediate ping. -/
structure ConnectEnv where
  openResult : Except String Unit
  pingResult : Except String Unit

/-- PGConnection models the `postgresql.Connection` value returned by a
successful `Connect`: it owns the (already validated) config; its driver
handle lives only in the event trace. -/
structure PGConnection where
  config : PostgreSQLConfig
deriving DecidableEq, Repr

/-- CHConnection models the `clickhouse.Connection` value returned by a
successful `Connect`. -/
structure CHConnection where
  config : ClickHouseConfig
deriving DecidableEq, Repr

/-- Connect of the PostgreSQL plugin: type-asserts the config, validates it,
opens the driver client, pings; on ping failure it calls `db.Close()` before
returning the error. The returned trace lists the driver-client events in
order. -/
def pgConnect (env : ConnectEnv) (config : ConnectionConfig) :
    Except String PGConnection × List DriverEvent :=
  match config with
  | .pgPtr c =>
    match c.validate with
    | .error e => (.error ("invalid PostgreSQL config: " ++ e), [])
    | .ok c1 =>
      match env.openResult with
      | .error e => (.error ("failed to open PostgreSQL connection: " ++ e), [])
      | .ok _ =>
        match env.pingResult with
        | .error e => (.error ("failed to ping PostgreSQL: " ++ e), [.opened, .closed])
        | .ok _ => (.ok ⟨c1⟩, [.opened])
  | _ => (.error "invalid config type for PostgreSQL", [])

/-- Connect of the ClickHouse plugin: same shape as the PostgreSQL one with
the ClickHouse messages; on ping failure it calls `conn.Close()` before
returning the error. -/
def chConnect (env : ConnectEnv) (config : ConnectionConfig) :
    Except String CHConnection × List DriverEvent :=
  match config with
  | .chPtr c =>
    match c.validate with
    | .error e => (.error ("invalid ClickHouse config: " ++ e), [])
    | .ok c1 =>
      match env.openResult with
      | .error e => (.error ("failed to open ClickHouse connection: " ++ e), [])
      | .ok _ =>
        match env.pingResult with
        | .error e => (.error ("failed to ping ClickHouse: " ++ e), [.opened, .closed])
        | .ok _ => (.ok ⟨c1⟩, [.opened])
  | _ => (.error "invalid config type for ClickHouse", [])

/-- ConnectionTestResult mirrors `models.ConnectionTestResult`; the `TestedAt`
wall-clock timestamp is not modelled. Latency is Go's
`time.Since(start).Milliseconds()`, an integer count of whole milliseconds. -/
structure ConnectionTestResult where
  isConnected : Bool
  message : String
  latency : Nat
deriving DecidableEq, Repr

/-- TestConnection of the PostgreSQL plugin: runs `Connect`; a connect error
is downgraded to a not-connected result with the error text as message; then
one more `conn.Ping` whose failure is downgraded likewise; on success the
result carries the exact message "Connection successful" and the elapsed
connect+ping time truncated to whole milliseconds. The Go function returns
`(*ConnectionTestResult, error)`; the error component is the second member of
the pair. -/
def pgTestConnection (env : ConnectEnv) (secondPing : Except String Unit)
    (elapsedNs : Nat) (config : ConnectionConfig) :
    Option ConnectionTestResult × Option String :=
  match (pgConnect env config).1 with
  | .error m => (some ⟨false, m, 0⟩, none)
  | .ok _ =>
    match secondPing with
    | .error e => (some ⟨false, "ping failed: " ++ e, 0⟩, none)
    | .ok _ => (some ⟨true, "Connection successful", elapsedNs / 1000000⟩, none)

/-- TestConnection of the ClickHouse plugin: identical control flow to the
PostgreSQL one, over the ClickHouse `Connect`. -/
def chTestConnection (env : ConnectEnv) (secondPing : Except String Unit)
    (elapsedNs : Nat) (config : ConnectionConfig) :
    Option ConnectionTestResult × Option String :=
  match (chConnect env config).1 with
  | .error m => (some ⟨false, m, 0⟩, none)
  | .ok _ =>
    match secondPing with
    | .error e => (some ⟨false, "ping failed: " ++ e, 0⟩, none)
    | .ok _ => (some ⟨true, "Connection successful", elapsedNs / 1000000⟩, none)

/-- ColumnInfo mirrors `datasource.ColumnInfo`. -/
structure ColumnInfo where
  name : String
  type : String
  nullable : Bool
deriving DecidableEq, Repr

/-- QueryStats mirrors `datasource.QueryStats` (execution time in
nanoseconds, as Go's `time.Duration`; the unused fields are omitted). -/
structure QueryStats where
  executionTimeNs : Nat
  rowsReturned : Int
deriving DecidableEq, Repr

/-- QueryResult mirrors `datasource.QueryResult`: column descriptors, rows of
`interface\x7b\x7d` values, statistics. -/
structure QueryResult where
  columns : List ColumnInfo
  rows : List (List GoValue)
  stats : QueryStats

/-- QueryEnv fixes the driver outcome of one `Query` call: either an error
from `QueryContext` / `ColumnTypes` / `Scan` / row iteration (the code wraps
each in its own message; the wrapped text is supplied whole), or the column
metadata together with the raw scanned rows, plus the elapsed wall time. -/
structure QueryEnv where
  result : Except String (List ColumnInfo × List (List GoValue))
  elapsedNs : Nat

/-- Go `string(b)` conversion of a byte slice for transport; the exact
decoding is irrelevant here, only that the value becomes a string. -/
def bytesToString (b : List Nat) : String :=
  String.mk (b.map Char.ofNat)

/-- One value of a scanned row as the PostgreSQL `Query` post-processes it:
a `[]byte` cell is replaced by `string(b)`, every other value is kept. -/
def convertBytesValue : GoValue → GoValue
  | .bytes b => .str (bytesToString b)
  | v => v

/-- Query of the PostgreSQL connection: on driver success it converts every
`[]byte` cell to a string ("for better JSON serialization") and records the
elapsed time and the returned-row count. -/
def pgQuery (env : QueryEnv) : Except String QueryResult :=
  match env.result with
  | .error e => .error e
  | .ok (cols, raw) =>
    let rows := raw.map (fun row => row.map convertBytesValue)
    .ok ⟨cols, rows, ⟨env.elapsedNs, Int.ofNat rows.length⟩⟩

/-- Query of the ClickHouse connection: the scanned values are appended to
the result as-is — the file has no `[]byte`-to-string conversion loop. -/
def chQuery (env : QueryEnv) : Except String QueryResult :=
  match env.result with
  | .error e => .error e
  | .ok (cols, raw) =>
    .ok ⟨cols, raw, ⟨env.elapsedNs, Int.ofNat raw.length⟩⟩

/-- Decides whether a value is a raw `[]byte` cell. -/
def GoValue.isBytes : GoValue → Bool
  | .bytes _ => true
  | _ => false

/-- Decides whether any cell of any row of a query result is a raw `[]byte`
value. -/
def QueryResult.hasRawBytes (q : QueryResult) : Bool :=
  q.rows.any (fun row => row.any GoValue.isBytes)

/-- TableInfo mirrors `datasource.TableInfo` (description field omitted — it
is never set by the plugins). -/
structure TableInfo where
  name : String
  type : String
  columns : List ColumnInfo
  rowCount : Option Int
  size : Option Int
deriving DecidableEq, Repr

/-- DatabaseInfo mirrors `datasource.DatabaseInfo` (description omitted). -/
structure DatabaseInfo where
  name : String
  tables : List TableInfo
deriving DecidableEq, Repr

/-- SchemaInfo mirrors `datasource.SchemaInfo`. -/
structure SchemaInfo where
  databases : List DatabaseInfo
deriving DecidableEq, Repr

/-- PGIntrospectionEnv fixes the rows (or error) produced by each catalog
query the PostgreSQL connection runs during introspection: the schemata
listing of `getDatabases`, the per-schema table listing of `GetTables`, and
the per-table column listing of `getTableColumns`. Each entry stands for one
`c.Query(...)` call, already wrapped the way `Query` wraps driver errors. -/
structure PGIntrospectionEnv where
  schemataRows : Except String (List (List GoValue))
  tablesRows : String → Except String (List (List GoValue))
  columnsRows : String → String → Except String (List (List GoValue))

/-- Go comma-ok string assertion `s, _ := v.(string)`: the string, or the
zero value "" when the cell is not a string. -/
def GoValue.asStringD : GoValue → String
  | .str s => s
  | _ => ""

/-- getTableColumns of the PostgreSQL connection: runs the
`information_schema.columns` query and parses each row with comma-ok
assertions; `is_nullable` is compared against "YES". -/
def pgGetTableColumns (env : PGIntrospectionEnv) (schemaName tableName : String) :
    Except String (List ColumnInfo) :=
  match env.columnsRows schemaName tableName with
  | .error e => .error ("failed to get columns: " ++ e)
  | .ok rows =>
    .ok (rows.map (fun row =>
      ⟨(row.getD 0 .goNil).asStringD,
       (row.getD 1 .goNil).asStringD,
       (row.getD 2 .goNil).asStringD == "YES"⟩))

/-- One row of the `information_schema.tables` listing as PostgreSQL
`GetTables` parses it: name and type by comma-ok string assertion, size and
estimated rows kept only when the cell is an `int64` strictly above zero, and
the column list from `getTableColumns` — with a failed column lookup swallowed
into an empty column list ("Log error but continue"). -/
def pgParseTableRow (env : PGIntrospectionEnv) (schemaName : String)
    (row : List GoValue) : TableInfo :=
  let name := (row.getD 0 .goNil).asStringD
  let tableType := (row.getD 1 .goNil).asStringD
  let size : Option Int :=
    match row.getD 2 .goNil with
    | .int64 n => if n > 0 then some n else none
    | _ => none
  let rowCount : Option Int :=
    match row.getD 3 .goNil with
    | .int64 n => if n > 0 then some n else none
    | _ => none
  let columns :=
    match pgGetTableColumns env schemaName name with
    | .error _ => []
    | .ok cs => cs
  ⟨name, tableType, columns, rowCount, size⟩

/-- GetTables of the PostgreSQL connection: defaults an empty schema name to
"public", runs the table listing (failing the whole call if that query
fails), and parses each row with `pgParseTableRow`. -/
def pgGetTables (env : PGIntrospectionEnv) (schemaName : String) :
    Except String (List TableInfo) :=
  let s := if schemaName = "" then "public" else schemaName
  match env.tablesRows s with
  | .error e => .error ("failed to get tables: " ++ e)
  | .ok rows => .ok (rows.map (pgParseTableRow env s))

/-- getDatabases of the PostgreSQL connection: runs the schemata listing
(failing the whole call if that query fails); for each row whose first cell
is a string, lists that schema's tables via `GetTables` — swallowing a
`GetTables` failure into an empty table list ("Log error but continue with
other schemas"); rows whose first cell is not a string are skipped. -/
def pgGetDatabases (env : PGIntrospectionEnv) : Except String (List DatabaseInfo) :=
  match env.schemataRows with
  | .error e => .error ("failed to get schemas: " ++ e)
  | .ok rows =>
    .ok (rows.filterMap (fun row =>
      match row.getD 0 .goNil with
      | .str schemaName =>
        let tables :=
          match pgGetTables env schemaName with
          | .error _ => []
          | .ok ts => ts
        some ⟨schemaName, tables⟩
      | _ => none))

/-- GetSchema of the PostgreSQL connection: wraps `getDatabases`. -/
def pgGetSchema (env : PGIntrospectionEnv) : Except String SchemaInfo :=
  match pgGetDatabases env with
  | .error e => .error e
  | .ok dbs => .ok ⟨dbs⟩

/-- CreateDataSourceRequest mirrors `api.CreateDataSourceRequest` after a
successful JSON bind: its `Config` field is the decoded
`map[string]interface\x7b\x7d`. -/
structure CreateDataSourceRequest where
  name : String
  type : DataSourceType
  config : List (String × GoValue)
  description : String
  tags : List String
  createdBy : String

/-- DataSource is the persisted record the handler builds on the success
path (ID and timestamps are assigned by the store and not modelled; the
marshalled config blob is kept as the decoded map). -/
structure DataSource where
  name : String
  type : DataSourceType
  config : List (String × GoValue)
  description : String
  tags : List String
  createdBy : String
  isActive : Bool

/-- CreateResponse is the HTTP outcome of `CreateDataSource`: 400, 500, or
201 with the created record. -/
inductive CreateResponse where
  | badRequest (msg : String)
  | internalError (msg : String)
  | created (ds : DataSource)

/-- CreateDataSource of `api.DataSourceHandler`: looks the requested type up
in the registry (400 "unsupported data source type" when absent), passes the
decoded config map to the plugin's `ValidateConfig` (400 "invalid
configuration: ..." on error), marshals the map back to JSON (marshalling a
decoded JSON map cannot fail and is modelled as succeeding), and persists the
record — `storeOutcome` fixes the metadata store's answer. -/
def createDataSource (r : Registry) (storeOutcome : Except String Unit)
    (req : CreateDataSourceRequest) : CreateResponse :=
  match (r.Get req.type).1 with
  | none => .badRequest "unsupported data source type"
  | some plugin =>
    match plugin.ValidateConfig (.jsonMap req.config) with
    | some e => .badRequest ("invalid configuration: " ++ e)
    | none =>
      match storeOutcome with
      | .error e => .internalError e
      | .ok _ =>
        .created ⟨req.name, req.type, req.config, req.description, req.tags,
          req.createdBy, true⟩

/-- Decides whether a response is the 201-created outcome, i.e. whether the
handler reached the persistence path. -/
def CreateResponse.isCreated : CreateResponse → Bool
  | .created _ => true
  | _ => false

/-- Decides whether an `Except` value is the error case (Go: a non-nil
error was returned). -/
def exceptIsError {ε α : Type _} : Except ε α → Bool
  | .error _ => true
  | .ok _ => false

/-- Registry state after startup wiring: `InitializePlugins` run on a fresh
registry, exactly as `web.go` wires the service. -/
def initializedRegistry : Registry :=
  DataSourceService.InitializePlugins Registry.NewRegistry

/-- Concrete introspection environment for exercising the partial-failure
paths: two schemas "alpha" and "beta", the table listing failing for "alpha"
and returning one table row for "beta", and every column lookup failing. -/
def sampleIntrospectionEnv : PGIntrospectionEnv where
  schemataRows := .ok [[.str "alpha"], [.str "beta"]]
  tablesRows := fun s =>
    if s = "alpha" then .error "relation scan aborted"
    else .ok [[.str "events", .str "BASE TABLE", .int64 4096, .int64 7]]
  columnsRows := fun _ _ => .error "column catalog unavailable"

/-- C1 counterexample: after `InitializePlugins` on a fresh registry,
`Get` returns found = false for the `sqlite` and `opensearch` members of the
enumeration, so it is not the case that every member of the closed
`DataSourceType` enumeration is registered. -/
theorem c1_counterexample :
    ((initializedRegistry.Get .sqlite).2 = false) ∧
    ((initializedRegistry.Get .opensearch).2 = false) := by
  exact ⟨rfl, rfl⟩

/-- C1 (amended): after `InitializePlugins` on a fresh registry, `Get`
returns found = true exactly for `postgresql` and `clickhouse` (the two
built-in plugins the service registers) and found = false for `sqlite` and
`opensearch`, which the source leaves as TODO items. -/
theorem c1_registered_types_exactly_pg_and_ch :
    initializedRegistry.Get .postgresql = (some .postgresqlPlugin, true) ∧
    initializedRegistry.Get .clickhouse = (some .clickhousePlugin, true) ∧
    initializedRegistry.Get .sqlite = (none, false) ∧
    initializedRegistry.Get .opensearch = (none, false) := by
  exact ⟨rfl, rfl, rfl, rfl⟩

/-- C4: for each of the four config variants, `Validate` rejects an empty
mandatory field (host, host, path, URL list respectively), and with that
field present and all other fields at their zero values it succeeds, filling
PostgreSQL Port 5432 and SSLMode "prefer", and ClickHouse Port 9000; SQLite
and OpenSearch configs pass through unchanged. -/
theorem c4_validate_rejects_empty_and_fills_defaults :
    (∀ c : PostgreSQLConfig, c.host = "" →
      c.validate = .error "host is required") ∧
    (∀ h : String, h ≠ "" →
      (PostgreSQLConfig.mk h 0 "" "" "" "").validate =
        .ok (PostgreSQLConfig.mk h 5432 "" "" "" "prefer")) ∧
    (∀ c : ClickHouseConfig, c.host = "" →
      c.validate = .error "host is required") ∧
    (∀ h : String, h ≠ "" →
      (ClickHouseConfig.mk h 0 "" "" "" false).validate =
        .ok (ClickHouseConfig.mk h 9000 "" "" "" false)) ∧
    (∀ c : SQLiteConfig, c.path = "" →
      c.validate = .error "path is required") ∧
    (∀ p : String, p ≠ "" →
      (SQLiteConfig.mk p).validate = .ok (SQLiteConfig.mk p)) ∧
    (∀ c : OpenSearchConfig, c.urls = [] →
      c.validate = .error "at least one URL is required") ∧
    (∀ (u : String) (us : List String),
      (OpenSearchConfig.mk (u :: us) "" "" "").validate =
        .ok (OpenSearchConfig.mk (u :: us) "" "" "")) := by
  refine ⟨?_, ?_, ?_, ?_, ?_, ?_, ?_, ?_⟩
  · intro c h; simp [PostgreSQLConfig.validate, h]
  · intro h hne; simp [PostgreSQLConfig.validate, hne]
  · intro c h; simp [ClickHouseConfig.validate, h]
  · intro h hne; simp [ClickHouseConfig.validate, hne]
  · intro c h; simp [SQLiteConfig.validate, h]
  · intro p hne; simp [SQLiteConfig.validate, hne]
  · intro c h; simp [OpenSearchConfig.validate, h]
  · intro u us; simp [OpenSearchConfig.validate]

/-- C4 witness: the eight clauses evaluated at concrete configs. -/
theorem c4_witness :
    (PostgreSQLConfig.mk "" 3 "d" "u" "p" "x").validate =
      .error "host is required" ∧
    (PostgreSQLConfig.mk "localhost" 0 "" "" "" "").validate =
      .ok (PostgreSQLConfig.mk "localhost" 5432 "" "" "" "prefer") ∧
    (ClickHouseConfig.mk "" 3 "d" "u" "p" false).validate =
      .error "host is required" ∧
    (ClickHouseConfig.mk "localhost" 0 "" "" "" false).validate =
      .ok (ClickHouseConfig.mk "localhost" 9000 "" "" "" false) ∧
    (SQLiteConfig.mk "").validate = .error "path is required" ∧
    (SQLiteConfig.mk "/tmp/db.sqlite").validate =
      .ok (SQLiteConfig.mk "/tmp/db.sqlite") ∧
    (OpenSearchConfig.mk [] "u" "p" "k").validate =
      .error "at least one URL is required" ∧
    (OpenSearchConfig.mk ["http://a:9200"] "" "" "").validate =
      .ok (OpenSearchConfig.mk ["http://a:9200"] "" "" "") := by
  refine ⟨?_, ?_, ?_, ?_, ?_, ?_, ?_, ?_⟩
  · exact c4_validate_rejects_empty_and_fills_defaults.1 _ rfl
  · exact c4_validate_rejects_empty_and_fills_defaults.2.1 "localhost" (by decide)
  · exact c4_validate_rejects_empty_and_fills_defaults.2.2.1 _ rfl
  · exact c4_validate_rejects_empty_and_fills_defaults.2.2.2.1 "localhost" (by decide)
  · exact c4_validate_rejects_empty_and_fills_defaults.2.2.2.2.1 _ rfl
  · exact c4_validate_rejects_empty_and_fills_defaults.2.2.2.2.2.1 _ (by decide)
  · exact c4_validate_rejects_empty_and_fills_defaults.2.2.2.2.2.2.1 _ rfl
  · exact c4_validate_rejects_empty_and_fills_defaults.2.2.2.2.2.2.2 "http://a:9200" []

/-- C10: `OpenSearchConfig.GetConnectionString` on an empty URL list hits the
unguarded `URLs[0]` access (modelled as `none`, the Go panic); and whenever
`Validate` has returned nil, the URL list is non-empty and the access returns
the first URL. -/
theorem c10_get_connection_string_first_url :
    ((OpenSearchConfig.mk [] "" "" "").getConnectionString = none) ∧
    (∀ c c' : OpenSearchConfig, c.validate = .ok c' →
      c'.urls ≠ [] ∧ c'.getConnectionString = some (c'.urls.headD "")) := by
  refine ⟨rfl, ?_⟩
  intro c c' h
  unfold OpenSearchConfig.validate at h
  by_cases hu : c.urls = []
  · simp [hu] at h
  · simp [hu] at h
    subst h
    refine ⟨hu, ?_⟩
    cases hl : c.urls with
    | nil => exact absurd hl hu
    | cons u us => simp [OpenSearchConfig.getConnectionString, hl]

/-- C10 witness: a validated two-URL config yields its first URL. -/
theorem c10_witness :
    (OpenSearchConfig.mk ["http://a:9200", "http://b:9200"] "" "" "").urls ≠ [] ∧
    (OpenSearchConfig.mk ["http://a:9200", "http://b:9200"] "" "" "").getConnectionString =
      some ((["http://a:9200", "http://b:9200"] : List String).headD "") := by
  exact c10_get_connection_string_first_url.2
    (OpenSearchConfig.mk ["http://a:9200", "http://b:9200"] "" "" "")
    (OpenSearchConfig.mk ["http://a:9200", "http://b:9200"] "" "" "") rfl

/-- C5: for every registry, store outcome and request whose type names a
registered plugin, `CreateDataSource` hands the JSON-decoded config map to
the plugin's `ValidateConfig`; both plugins type-assert a pointer-to-struct
config, which no map value satisfies, so the handler answers 400 "invalid
configuration: ..." and never reaches the persistence path. -/
theorem c5_create_datasource_rejects_every_map_config :
    ∀ (r : Registry) (storeOutcome : Except String Unit)
      (req : CreateDataSourceRequest) (p : GoPlugin),
      (r.Get req.type).1 = some p →
      (∃ e, createDataSource r storeOutcome req =
        .badRequest ("invalid configuration: " ++ e)) ∧
      (createDataSource r storeOutcome req).isCreated = false := by
  intro r store req p hget
  have hv : ∃ e, p.ValidateConfig (.jsonMap req.config) = some e := by
    cases p
    · exact ⟨_, rfl⟩
    · exact ⟨_, rfl⟩
  obtain ⟨e, he⟩ := hv
  have hrun : createDataSource r store req =
      .badRequest ("invalid configuration: " ++ e) := by
    simp [createDataSource, hget, he]
  exact ⟨⟨e, hrun⟩, by rw [hrun]; rfl⟩

/-- C5 witness: a well-formed PostgreSQL create request with a decoded JSON
config map is rejected with 400 and is not persisted. -/
theorem c5_witness :
    (∃ e, createDataSource initializedRegistry (.ok ())
        ⟨"prod-db", .postgresql, [("host", .str "localhost")], "", [], "admin"⟩ =
      .badRequest ("invalid configuration: " ++ e)) ∧
    (createDataSource initializedRegistry (.ok ())
        ⟨"prod-db", .postgresql, [("host", .str "localhost")], "", [], "admin"⟩).isCreated
      = false := by
  exact c5_create_datasource_rejects_every_map_config initializedRegistry (.ok ())
    ⟨"prod-db", .postgresql, [("host", .str "localhost")], "", [], "admin"⟩
    .postgresqlPlugin rfl

/-- C2: for both plugins, every driver environment and every config,
`TestConnection` returns a non-nil result and a nil error on every path; a
`Connect` failure is downgraded to a not-connected result whose message is
the connect error text (which carries the underlying failure text), a ping
failure to "ping failed: ..." — and in particular an unreachable host
(failing open) yields the full wrapped driver message. -/
theorem c2_test_connection_always_structured :
    ∀ (env : ConnectEnv) (sp : Except String Unit) (ns : Nat)
      (cfg : ConnectionConfig),
      ((pgTestConnection env sp ns cfg).1.isSome = true ∧
       (pgTestConnection env sp ns cfg).2 = none ∧
       (chTestConnection env sp ns cfg).1.isSome = true ∧
       (chTestConnection env sp ns cfg).2 = none) ∧
      (∀ m, (pgConnect env cfg).1 = .error m →
        (pgTestConnection env sp ns cfg).1 = some ⟨false, m, 0⟩) ∧
      (∀ m, (chConnect env cfg).1 = .error m →
        (chTestConnection env sp ns cfg).1 = some ⟨false, m, 0⟩) ∧
      (∀ conn e, (pgConnect env cfg).1 = .ok conn → sp = .error e →
        (pgTestConnection env sp ns cfg).1 = some ⟨false, "ping failed: " ++ e, 0⟩) ∧
      (∀ conn e, (chConnect env cfg).1 = .ok conn → sp = .error e →
        (chTestConnection env sp ns cfg).1 = some ⟨false, "ping failed: " ++ e, 0⟩) ∧
      (∀ c c1 e, cfg = .pgPtr c → c.validate = .ok c1 → env.openResult = .error e →
        (pgTestConnection env sp ns cfg).1 =
          some ⟨false, "failed to open PostgreSQL connection: " ++ e, 0⟩) ∧
      (∀ c c1 e, cfg = .chPtr c → c.validate = .ok c1 → env.openResult = .error e →
        (chTestConnection env sp ns cfg).1 =
          some ⟨false, "failed to open ClickHouse connection: " ++ e, 0⟩) := by
  intro env sp ns cfg
  refine ⟨⟨?_, ?_, ?_, ?_⟩, ?_, ?_, ?_, ?_, ?_, ?_⟩
  · cases hc : (pgConnect env cfg).1 <;> cases sp <;> simp [pgTestConnection, hc]
  · cases hc : (pgConnect env cfg).1 <;> cases sp <;> simp [pgTestConnection, hc]
  · cases hc : (chConnect env cfg).1 <;> cases sp <;> simp [chTestConnection, hc]
  · cases hc : (chConnect env cfg).1 <;> cases sp <;> simp [chTestConnection, hc]
  · intro m hm; simp [pgTestConnection, hm]
  · intro m hm; simp [chTestConnection, hm]
  · intro conn e h1 h2; simp [pgTestConnection, h1, h2]
  · intro conn e h1 h2; simp [chTestConnection, h1, h2]
  · intro c c1 e hcfg hval hopen
    subst hcfg
    have hc : (pgConnect env (.pgPtr c)).1 =
        .error ("failed to open PostgreSQL connection: " ++ e) := by
      simp [pgConnect, hval, hopen]
    simp [pgTestConnection, hc]
  · intro c c1 e hcfg hval hopen
    subst hcfg
    have hc : (chConnect env (.chPtr c)).1 =
        .error ("failed to open ClickHouse connection: " ++ e) := by
      simp [chConnect, hval, hopen]
    simp [chTestConnection, hc]

/-- C2 witness: against an unreachable host (driver open fails with
"connection refused"), both plugins' `TestConnection` hand back a
not-connected result carrying the wrapped driver message. -/
theorem c2_witness :
    (pgTestConnection ⟨.error "connection refused", .ok ()⟩ (.ok ()) 0
        (.pgPtr ⟨"localhost", 5432, "db", "u", "p", "prefer"⟩)).1 =
      some ⟨false, "failed to open PostgreSQL connection: connection refused", 0⟩ ∧
    (chTestConnection ⟨.error "connection refused", .ok ()⟩ (.ok ()) 0
        (.chPtr ⟨"localhost", 9000, "db", "u", "p", false⟩)).1 =
      some ⟨false, "failed to open ClickHouse connection: connection refused", 0⟩ := by
  constructor
  · exact (c2_test_connection_always_structured ⟨.error "connection refused", .ok ()⟩
      (.ok ()) 0 (.pgPtr ⟨"localhost", 5432, "db", "u", "p", "prefer"⟩)).2.2.2.2.2.1
      ⟨"localhost", 5432, "db", "u", "p", "prefer"⟩
      ⟨"localhost", 5432, "db", "u", "p", "prefer"⟩
      "connection refused" rfl rfl rfl
  · exact (c2_test_connection_always_structured ⟨.error "connection refused", .ok ()⟩
      (.ok ()) 0 (.chPtr ⟨"localhost", 9000, "db", "u", "p", false⟩)).2.2.2.2.2.2
      ⟨"localhost", 9000, "db", "u", "p", false⟩
      ⟨"localhost", 9000, "db", "u", "p", false⟩
      "connection refused" rfl rfl rfl

/-- C3: for both plugins, whenever the driver client opens successfully but
the immediate ping fails, `Connect` returns an error (never a live
connection) and the event trace closes every client it opened — the failure
path leaves no half-open client behind. -/
theorem c3_connect_ping_failure_releases_client :
    ∀ (env : ConnectEnv) (cfg : ConnectionConfig) (e : String),
      env.openResult = .ok () → env.pingResult = .error e →
      (exceptIsError (pgConnect env cfg).1 = true ∧
       (pgConnect env cfg).2.count .opened = (pgConnect env cfg).2.count .closed) ∧
      (exceptIsError (chConnect env cfg).1 = true ∧
       (chConnect env cfg).2.count .opened = (chConnect env cfg).2.count .closed) := by
  intro env cfg e hopen hping
  constructor
  · cases cfg with
    | pgPtr c =>
      cases hv : c.validate with
      | error m => simp [pgConnect, hv, exceptIsError]
      | ok c1 => simp [pgConnect, hv, hopen, hping, exceptIsError]
    | chPtr c => simp [pgConnect, exceptIsError]
    | sqlitePtr c => simp [pgConnect, exceptIsError]
    | osPtr c => simp [pgConnect, exceptIsError]
  · cases cfg with
    | chPtr c =>
      cases hv : c.validate with
      | error m => simp [chConnect, hv, exceptIsError]
      | ok c1 => simp [chConnect, hv, hopen, hping, exceptIsError]
    | pgPtr c => simp [chConnect, exceptIsError]
    | sqlitePtr c => simp [chConnect, exceptIsError]
    | osPtr c => simp [chConnect, exceptIsError]

/-- C3 witness: with the open call succeeding and the ping failing, both
plugins' `Connect` return an error and their traces balance opens with
closes. -/
theorem c3_witness :
    (exceptIsError (pgConnect ⟨.ok (), .error "reset"⟩
        (.pgPtr ⟨"localhost", 5432, "db", "u", "p", "prefer"⟩)).1 = true ∧
     (pgConnect ⟨.ok (), .error "reset"⟩
        (.pgPtr ⟨"localhost", 5432, "db", "u", "p", "prefer"⟩)).2.count .opened =
       (pgConnect ⟨.ok (), .error "reset"⟩
        (.pgPtr ⟨"localhost", 5432, "db", "u", "p", "prefer"⟩)).2.count .closed) ∧
    (exceptIsError (chConnect ⟨.ok (), .error "reset"⟩
        (.chPtr ⟨"localhost", 9000, "db", "u", "p", false⟩)).1 = true ∧
     (chConnect ⟨.ok (), .error "reset"⟩
        (.chPtr ⟨"localhost", 9000, "db", "u", "p", false⟩)).2.count .opened =
       (chConnect ⟨.ok (), .error "reset"⟩
        (.chPtr ⟨"localhost", 9000, "db", "u", "p", false⟩)).2.count .closed) := by
  constructor
  · exact (c3_connect_ping_failure_releases_client ⟨.ok (), .error "reset"⟩
      (.pgPtr ⟨"localhost", 5432, "db", "u", "p", "prefer"⟩) "reset" rfl rfl).1
  · exact (c3_connect_ping_failure_releases_client ⟨.ok (), .error "reset"⟩
      (.chPtr ⟨"localhost", 9000, "db", "u", "p", false⟩) "reset" rfl rfl).2

/-- C8 counterexample: a successful connect+ping cycle that takes half a
millisecond yields Latency = 0 for both plugins — Go's
`time.Since(start).Milliseconds()` truncates to whole milliseconds — so a
successful `TestConnection` does not always report Latency strictly greater
than zero. -/
theorem c8_counterexample :
    pgTestConnection ⟨.ok (), .ok ()⟩ (.ok ()) 500000
        (.pgPtr ⟨"localhost", 5432, "db", "u", "p", "prefer"⟩) =
      (some ⟨true, "Connection successful", 0⟩, none) ∧
    chTestConnection ⟨.ok (), .ok ()⟩ (.ok ()) 500000
        (.chPtr ⟨"localhost", 9000, "db", "u", "p", false⟩) =
      (some ⟨true, "Connection successful", 0⟩, none) := by
  exact ⟨rfl, rfl⟩

/-- C8 (amended): for both plugins, when `Connect` and the follow-up ping
succeed, `TestConnection` returns IsConnected = true, Message exactly
"Connection successful", and Latency equal to the elapsed connect+ping time
truncated to whole milliseconds — strictly positive whenever the cycle took
at least one millisecond. -/
theorem c8_test_connection_success_fields :
    ∀ (env : ConnectEnv) (ns : Nat) (cfg : ConnectionConfig),
      (∀ conn, (pgConnect env cfg).1 = .ok conn →
        pgTestConnection env (.ok ()) ns cfg =
          (some ⟨true, "Connection successful", ns / 1000000⟩, none)) ∧
      (∀ conn, (chConnect env cfg).1 = .ok conn →
        chTestConnection env (.ok ()) ns cfg =
          (some ⟨true, "Connection successful", ns / 1000000⟩, none)) ∧
      (1000000 ≤ ns → 0 < ns / 1000000) := by
  intro env ns cfg
  refine ⟨?_, ?_, ?_⟩
  · intro conn h; simp [pgTestConnection, h]
  · intro conn h; simp [chTestConnection, h]
  · intro h; exact Nat.div_pos h (by decide)

/-- C8 witness: a 5 ms successful cycle reports Latency 5 and the exact
success message. -/
theorem c8_witness :
    pgTestConnection ⟨.ok (), .ok ()⟩ (.ok ()) 5000000
        (.pgPtr ⟨"localhost", 5432, "db", "u", "p", "prefer"⟩) =
      (some ⟨true, "Connection successful", 5⟩, none) ∧
    0 < (5000000 : Nat) / 1000000 := by
  constructor
  · exact (c8_test_connection_success_fields ⟨.ok (), .ok ()⟩ 5000000
      (.pgPtr ⟨"localhost", 5432, "db", "u", "p", "prefer"⟩)).1
      ⟨⟨"localhost", 5432, "db", "u", "p", "prefer"⟩⟩ rfl
  · exact (c8_test_connection_success_fields ⟨.ok (), .ok ()⟩ 5000000
      (.pgPtr ⟨"localhost", 5432, "db", "u", "p", "prefer"⟩)).2.2 (by decide)

/-- Converting a scanned cell never leaves a raw byte slice behind. -/
theorem isBytes_convertBytesValue (v : GoValue) :
    (convertBytesValue v).isBytes = false := by
  cases v <;> rfl

/-- C7 counterexample: the ClickHouse `Query` returns a scanned `[]byte`
cell unchanged — its result still contains a raw binary value — so it is not
the case that every plugin's `Query` converts binary column values to
strings. -/
theorem c7_counterexample :
    chQuery ⟨.ok ([⟨"payload", "String", false⟩], [[.bytes [104, 105]]]), 1000⟩ =
      .ok ⟨[⟨"payload", "String", false⟩], [[.bytes [104, 105]]], ⟨1000, 1⟩⟩ ∧
    QueryResult.hasRawBytes
      ⟨[⟨"payload", "String", false⟩], [[.bytes [104, 105]]], ⟨1000, 1⟩⟩ = true := by
  exact ⟨rfl, rfl⟩

/-- C7 (amended): the PostgreSQL `Query` converts every raw `[]byte` cell to
a string before returning, so its successful results carry no raw binary
values; the ClickHouse `Query` returns the scanned rows exactly as the
driver produced them, with no conversion. -/
theorem c7_pg_converts_bytes_ch_does_not :
    (∀ (env : QueryEnv) (q : QueryResult),
      pgQuery env = .ok q → q.hasRawBytes = false) ∧
    (∀ (env : QueryEnv) (cols : List ColumnInfo) (raw : List (List GoValue)),
      env.result = .ok (cols, raw) →
      chQuery env = .ok ⟨cols, raw, ⟨env.elapsedNs, Int.ofNat raw.length⟩⟩) := by
  constructor
  · intro env q h
    cases her : env.result with
    | error e => simp [pgQuery, her] at h
    | ok pr =>
      obtain ⟨cols, raw⟩ := pr
      simp only [pgQuery, her, Except.ok.injEq] at h
      subst h
      simp [QueryResult.hasRawBytes, List.any_map, Function.comp,
        isBytes_convertBytesValue]
  · intro env cols raw h
    simp [chQuery, h]

/-- C7 witness: a PostgreSQL query whose driver rows contain a `[]byte` cell
produces a result free of raw binary values (the cell became a string). -/
theorem c7_witness :
    QueryResult.hasRawBytes
      ⟨[⟨"payload", "String", false⟩], [[.str (bytesToString [104, 105])]],
        ⟨1000, 1⟩⟩ = false := by
  exact c7_pg_converts_bytes_ch_does_not.1
    ⟨.ok ([⟨"payload", "String", false⟩], [[.bytes [104, 105]]]), 1000⟩ _ rfl

/-- A type is present after a fold of `Register` calls exactly when some
registered plugin carries it or it was present before. -/
theorem foldl_register_isSome (ps : List GoPlugin) (r : Registry) (t : DataSourceType) :
    ((ps.foldl Registry.Register r).plugins t).isSome = true ↔
      t ∈ ps.map GoPlugin.GetType ∨ (r.plugins t).isSome = true := by
  induction ps generalizing r with
  | nil => simp
  | cons p ps ih =>
    simp only [List.foldl_cons, List.map_cons, List.mem_cons]
    rw [ih]
    by_cases ht : t = p.GetType <;> simp [Registry.Register, ht]

/-- Specialization of the previous lemma to a fresh registry. -/
theorem foldl_register_new_isSome (ps : List GoPlugin) (t : DataSourceType) :
    ((ps.foldl Registry.Register Registry.NewRegistry).plugins t).isSome = true ↔
      t ∈ ps.map GoPlugin.GetType := by
  rw [foldl_register_isSome]
  simp [Registry.NewRegistry]

/-- Every `DataSourceType` occurs in the key-space enumeration, which has no
duplicates. -/
theorem all_complete_nodup :
    (∀ t : DataSourceType, t ∈ DataSourceType.all) ∧ DataSourceType.all.Nodup := by
  constructor
  · intro t; cases t <;> simp [DataSourceType.all]
  · decide

/-- C9: registering a plugin makes `Get` at its type return it with
found = true; `Get` at a type no registered plugin carries returns
found = false; and the length of `GetSupportedTypes` equals the number of
distinct registered types, so re-registering a type overwrites rather than
adds. -/
theorem c9_registry_laws :
    (∀ (r : Registry) (p : GoPlugin),
      (r.Register p).Get p.GetType = (some p, true)) ∧
    (∀ (ps : List GoPlugin) (t : DataSourceType),
      t ∉ ps.map GoPlugin.GetType →
      (ps.foldl Registry.Register Registry.NewRegistry).Get t = (none, false)) ∧
    (∀ ps : List GoPlugin,
      ((ps.foldl Registry.Register Registry.NewRegistry).GetSupportedTypes).length =
        (ps.map GoPlugin.GetType).dedup.length) := by
  refine ⟨?_, ?_, ?_⟩
  · intro r p
    simp [Registry.Register, Registry.Get]
  · intro ps t ht
    have h := foldl_register_new_isSome ps t
    have hnone : ((ps.foldl Registry.Register Registry.NewRegistry).plugins t) = none := by
      cases ho : ((ps.foldl Registry.Register Registry.NewRegistry).plugins t) with
      | none => rfl
      | some q => exact absurd (h.mp (by rw [ho]; rfl)) ht
    simp [Registry.Get, hnone]
  · intro ps
    have hmem : ∀ t, ((ps.foldl Registry.Register Registry.NewRegistry).plugins t).isSome =
        decide (t ∈ ps.map GoPlugin.GetType) := by
      intro t
      have h := foldl_register_new_isSome ps t
      cases hb : ((ps.foldl Registry.Register Registry.NewRegistry).plugins t).isSome with
      | true => exact (decide_eq_true (h.mp hb)).symm
      | false =>
        refine (decide_eq_false ?_).symm
        intro hin
        rw [h.mpr hin] at hb
        cases hb
    have hfilter : (ps.foldl Registry.Register Registry.NewRegistry).GetSupportedTypes =
        DataSourceType.all.filter (fun t => decide (t ∈ ps.map GoPlugin.GetType)) := by
      unfold Registry.GetSupportedTypes
      exact List.filter_congr (fun t _ => hmem t)
    rw [hfilter]
    have hnd1 : (DataSourceType.all.filter
        (fun t => decide (t ∈ ps.map GoPlugin.GetType))).Nodup :=
      all_complete_nodup.2.filter _
    have hnd2 : ((ps.map GoPlugin.GetType).dedup).Nodup := List.nodup_dedup _
    have hperm : List.Perm
        (DataSourceType.all.filter (fun t => decide (t ∈ ps.map GoPlugin.GetType)))
        ((ps.map GoPlugin.GetType).dedup) := by
      rw [List.perm_ext_iff_of_nodup hnd1 hnd2]
      intro t
      simp [List.mem_filter, List.mem_dedup, all_complete_nodup.1 t]
    exact hperm.length_eq

/-- C9 witness: registering the PostgreSQL plugin twice and the ClickHouse
plugin once yields two supported types; a fresh registry with the ClickHouse
plugin alone answers found = false at `postgresql`. -/
theorem c9_witness :
    (Registry.NewRegistry.Register .postgresqlPlugin).Get
      GoPlugin.postgresqlPlugin.GetType = (some .postgresqlPlugin, true) ∧
    ([GoPlugin.clickhousePlugin].foldl Registry.Register
      Registry.NewRegistry).Get .postgresql = (none, false) ∧
    (([GoPlugin.postgresqlPlugin, GoPlugin.postgresqlPlugin,
        GoPlugin.clickhousePlugin].foldl Registry.Register
      Registry.NewRegistry).GetSupportedTypes).length =
      (([GoPlugin.postgresqlPlugin, GoPlugin.postgresqlPlugin,
        GoPlugin.clickhousePlugin].map GoPlugin.GetType).dedup).length := by
  refine ⟨?_, ?_, ?_⟩
  · exact c9_registry_laws.1 Registry.NewRegistry .postgresqlPlugin
  · exact c9_registry_laws.2.1 [.clickhousePlugin] .postgresql (by decide)
  · exact c9_registry_laws.2.2 [.postgresqlPlugin, .postgresqlPlugin, .clickhousePlugin]

/-- C6: during PostgreSQL introspection, a failing sub-listing is swallowed
locally: in `getDatabases`, a schema whose `GetTables` call fails gets an
empty table list while the other schemas are still populated and the whole
call succeeds; in `GetTables`, the listing succeeds whenever the table query
succeeds, and a table whose column lookup fails gets an empty column list
while the other tables keep their data. -/
theorem c6_partial_introspection_failures_swallowed :
    (∀ (env : PGIntrospectionEnv) (s1 s2 e : String) (rows2 : List (List GoValue)),
      s1 ≠ "" → s2 ≠ "" →
      env.schemataRows = .ok [[.str s1], [.str s2]] →
      env.tablesRows s1 = .error e →
      env.tablesRows s2 = .ok rows2 →
      pgGetDatabases env =
        .ok [⟨s1, []⟩, ⟨s2, rows2.map (pgParseTableRow env s2)⟩]) ∧
    (∀ (env : PGIntrospectionEnv) (s : String) (tRows : List (List GoValue)),
      s ≠ "" → env.tablesRows s = .ok tRows →
      pgGetTables env s = .ok (tRows.map (pgParseTableRow env s)) ∧
      ∀ (row : List GoValue) (ce : String),
        env.columnsRows s ((row.getD 0 .goNil).asStringD) = .error ce →
        (pgParseTableRow env s row).columns = []) := by
  constructor
  · intro env s1 s2 e rows2 h1 h2 hs htr1 htr2
    simp [pgGetDatabases, hs, pgGetTables, h1, h2, htr1, htr2]
  · intro env s tRows hs htr
    constructor
    · simp [pgGetTables, hs, htr]
    · intro row ce hce
      have hcols : (pgParseTableRow env s row).columns =
          match pgGetTableColumns env s ((row.getD 0 GoValue.goNil).asStringD) with
          | .error _ => []
          | .ok cs => cs := rfl
      rw [hcols]
      unfold pgGetTableColumns
      rw [hce]

/-- C6 witness: with schema "alpha" failing its table listing, schema "beta"
succeeding, and every column lookup failing, `getDatabases` still succeeds,
"alpha" gets an empty table list, "beta" keeps its table whose column list
is empty. -/
theorem c6_witness :
    pgGetDatabases sampleIntrospectionEnv =
      .ok [⟨"alpha", []⟩,
        ⟨"beta", [[GoValue.str "events", .str "BASE TABLE", .int64 4096,
          .int64 7]].map (pgParseTableRow sampleIntrospectionEnv "beta")⟩] ∧
    (pgParseTableRow sampleIntrospectionEnv "beta"
      [.str "events", .str "BASE TABLE", .int64 4096, .int64 7]).columns = [] := by
  constructor
  · exact c6_partial_introspection_failures_swallowed.1 sampleIntrospectionEnv
      "alpha" "beta" "relation scan aborted"
      [[.str "events", .str "BASE TABLE", .int64 4096, .int64 7]]
      (by decide) (by decide) rfl rfl rfl
  · exact (c6_partial_introspection_failures_swallowed.2 sampleIntrospectionEnv
      "beta" [[.str "events", .str "BASE TABLE", .int64 4096, .int64 7]]
      (by decide) rfl).2
      [.str "events", .str "BASE TABLE", .int64 4096, .int64 7]
      "column catalog unavailable" rfl

end DataVoyager
